import Mathlib

/-!
Formal model of the tic-tac-toe terminal client controller
(repository `tui-tik-tak-toe`, directory `frontend-tui`).

The repository contains the same client twice: a monolithic version in
`src/main.rs` and a modular version split across `src/app.rs`,
`src/api.rs` and `src/models.rs`.  The shared data types below embed the
records of `models.rs` (identical in `main.rs`).  Namespace `AppModule`
embeds the modular controller; namespace `MainMono` embeds the monolith.

Modelling conventions:
- Rust `usize` values are `Nat`; `saturating_sub` is truncated `Nat`
  subtraction.
- Strings are Lean `String`; `String.len()` (bytes) is modelled as the
  character count, which coincides for the ASCII inputs relevant here.
  `str::trim` is modelled as `rustTrim`, dropping leading/trailing
  whitespace characters.
- Every remote call goes through an oracle (`ApiOracle`) that holds the
  would-be result of each of the six operations; a handler returns, next
  to the updated state, the list of remote calls it issued (`ApiCall`),
  so "the Remote Game Client is called" is observable as a non-empty
  call list.
- The poll gate compares wall-clock seconds; `Instant` is a `Nat` and
  `elapsed() < Duration::from_secs(1)` becomes `now - last_poll_at < 1`.
- Rust slice indexing `board[idx]`, which panics when out of bounds, is
  modelled with `Option`: `none` marks the panic.
-/

set_option maxHeartbeats 1600000

namespace TicTacToeTui

/-- Key codes: the subset of `crossterm::event::KeyCode` the client
matches on, plus `other` for every remaining key. -/
inductive KeyCode where
  | char (c : Char)
  | enter
  | esc
  | backspace
  | tab
  | up
  | down
  | left
  | right
  | other
deriving DecidableEq, Repr

/-- Screen enumeration from `models.rs` (identical in `main.rs`). -/
inductive Screen where
  | Home
  | SoloGame
  | PvpLobby
  | PvpCreate
  | PvpGame
  | GameOver
  | Info
deriving DecidableEq, Repr

/-- Cached game snapshot, `ApiGame` from `models.rs`.  The `board` field
is `Vec<Option<String>>` in the source, deserialized with no length
check, hence a plain list here. -/
structure ApiGame where
  id : String
  mode : String
  name : Option String
  host_player_id : String
  guest_player_id : Option String
  board : List (Option String)
  current_turn : String
  status : String
  winner : Option String
  has_password : Bool
deriving DecidableEq, Repr

/-- Request body of create-solo (`CreateSoloRequest`). -/
structure CreateSoloRequest where
  player_id : String
  client_name : String
deriving DecidableEq, Repr

/-- Request body of create-pvp (`CreatePvpRequest`). -/
structure CreatePvpRequest where
  player_id : String
  name : String
  password : Option String
deriving DecidableEq, Repr

/-- Request body of join-pvp (`JoinPvpRequest`). -/
structure JoinPvpRequest where
  player_id : String
  password : Option String
deriving DecidableEq, Repr

/-- Request body of play-move (`PlayMoveRequest`). -/
structure PlayMoveRequest where
  player_id : String
  index : Nat
deriving DecidableEq, Repr

/-- The controller state: the fields of `App` (both versions) except the
HTTP handle and base URL, which carry no controller state. -/
structure AppState where
  player_id : String
  screen : Screen
  home_index : Nat
  board_cursor : Nat
  solo_game : Option ApiGame
  pvp_game : Option ApiGame
  pvp_games : List ApiGame
  pvp_selected_index : Nat
  create_name : String
  create_password : String
  create_field_index : Nat
  join_password : String
  editing_join_password : Bool
  game_over_message : String
  info_message : String
  should_quit : Bool
  last_poll_at : Nat
deriving DecidableEq, Repr

attribute [ext] AppState

/-- Descriptor of one remote call issued by the controller: operation
name plus the arguments passed at the call site. -/
inductive ApiCall where
  | createSolo (player_id : String)
  | createPvp (player_id : String) (name : String) (password : Option String)
  | listOpenPvp
  | joinPvp (player_id : String) (game_id : String) (password : Option String)
  | getGame (game_id : String)
  | playMove (player_id : String) (game_id : String) (index : Nat)
deriving DecidableEq, Repr

/-- Oracle holding the result the remote service would return for each
of the six operations, so handlers stay pure. -/
structure ApiOracle where
  create_solo_result : Except String ApiGame
  create_pvp_result : Except String ApiGame
  list_result : Except String (List ApiGame)
  join_result : Except String ApiGame
  get_result : Except String ApiGame
  play_result : Except String ApiGame
deriving Repr

/-- One controller-visible event: a key press or a poll tick. -/
inductive Input where
  | key (k : KeyCode) (o : ApiOracle)
  | tick (now : Nat) (o : ApiOracle)
deriving Repr

/-- Model of Rust `String::pop`: drop the last character. -/
def strPop (s : String) : String :=
  String.mk s.data.dropLast

/-- Model of Rust `str::trim`: drop leading and trailing whitespace. -/
def rustTrim (s : String) : String :=
  String.mk (((s.data.dropWhile Char.isWhitespace).reverse.dropWhile
    Char.isWhitespace).reverse)

namespace AppModule

/-- The `show_error` method of `app.rs`: record the message and switch
to the `Info` screen. -/
def show_error (s : AppState) (message : String) : AppState :=
  { s with info_message := message, screen := Screen.Info }

/-- The `is_game_finished` helper of `app.rs`. -/
def is_game_finished (game : ApiGame) : Bool :=
  game.status == "WON" || game.status == "DRAW"

/-- The `player_symbol_for` method of `app.rs`. -/
def player_symbol_for (player_id : String) (game : ApiGame) : String :=
  if game.host_player_id = player_id then "X"
  else if game.guest_player_id = some player_id then "O"
  else "?"

/-- The `result_line` local computed inside `open_game_over` in
`app.rs`. -/
def game_over_result_line (player_id : String) (game : ApiGame) : String :=
  if game.status = "WON" then
    let winner := game.winner.getD "Unknown"
    let you := player_symbol_for player_id game
    let outcome := if winner = you then "You won!" else "You lost."
    "Winner: " ++ winner ++ " (" ++ outcome ++ ")"
  else
    "Result: Draw"

/-- The `open_game_over` method of `app.rs`. -/
def open_game_over (s : AppState) (game : ApiGame) (mode_label : String) :
    AppState :=
  { s with
    game_over_message :=
      mode_label ++ " game finished.\nGame id: " ++ game.id ++ "\n" ++
        game_over_result_line s.player_id game,
    screen := Screen.GameOver }

/-- The `update_board_cursor` method of `app.rs`.  The digit-range test
compares scalar values, exactly as Rust `('1'..='9').contains(&ch)`. -/
def update_board_cursor (s : AppState) (key : KeyCode) : AppState :=
  let row := s.board_cursor / 3
  let col := s.board_cursor % 3
  match key with
  | KeyCode.left => { s with board_cursor := row * 3 + (col - 1) }
  | KeyCode.right => { s with board_cursor := row * 3 + min (col + 1) 2 }
  | KeyCode.up => { s with board_cursor := (row - 1) * 3 + col }
  | KeyCode.down => { s with board_cursor := min (row + 1) 2 * 3 + col }
  | KeyCode.char ch =>
    if Char.toNat '1' ≤ Char.toNat ch ∧ Char.toNat ch ≤ Char.toNat '9' then
      { s with board_cursor := Char.toNat ch - Char.toNat '1' }
    else
      { s with board_cursor := row * 3 + col }
  | _ => { s with board_cursor := row * 3 + col }

/-- The `handle_home_key` method of `app.rs`; the home menu has three
items (`Solo vs Computer`, `PvP`, `Exit`).  The Rust `match` on the key
code is rendered as a first-match conditional chain. -/
def handle_home_key (s : AppState) (key : KeyCode) (o : ApiOracle) :
    AppState × List ApiCall :=
  if key = KeyCode.char 'q' then ({ s with should_quit := true }, [])
  else if key = KeyCode.up then
    ({ s with home_index := s.home_index - 1 }, [])
  else if key = KeyCode.down then
    if s.home_index + 1 < 3 then
      ({ s with home_index := s.home_index + 1 }, [])
    else (s, [])
  else if key = KeyCode.enter then
    if s.home_index = 0 then
      match o.create_solo_result with
      | Except.ok game =>
        ({ s with solo_game := some game, board_cursor := 0,
                  screen := Screen.SoloGame },
         [ApiCall.createSolo s.player_id])
      | Except.error err =>
        (show_error s ("Could not start solo game: " ++ err),
         [ApiCall.createSolo s.player_id])
    else if s.home_index = 1 then
      match o.list_result with
      | Except.ok games =>
        ({ s with pvp_games := games, pvp_selected_index := 0,
                  screen := Screen.PvpLobby },
         [ApiCall.listOpenPvp])
      | Except.error err =>
        (show_error s ("Could not load PvP games: " ++ err),
         [ApiCall.listOpenPvp])
    else ({ s with should_quit := true }, [])
  else (s, [])

/-- The `handle_solo_key` method of `app.rs`. -/
def handle_solo_key (s : AppState) (key : KeyCode) (o : ApiOracle) :
    AppState × List ApiCall :=
  if key = KeyCode.char 'b' then ({ s with screen := Screen.Home }, [])
  else if key = KeyCode.char 'q' then ({ s with should_quit := true }, [])
  else
    let s := update_board_cursor s key
    match s.solo_game with
    | none => (s, [])
    | some game =>
      if key = KeyCode.enter ∨ key = KeyCode.char ' ' then
        if game.current_turn = "X" ∧ game.status = "IN_PROGRESS" then
          let call := ApiCall.playMove s.player_id game.id s.board_cursor
          match o.play_result with
          | Except.ok updated =>
            let s :=
              if is_game_finished updated then open_game_over s updated "Solo"
              else s
            ({ s with solo_game := some updated }, [call])
          | Except.error err =>
            (show_error s ("Move failed: " ++ err), [call])
        else (s, [])
      else (s, [])

/-- The `handle_pvp_lobby_key` method of `app.rs`; the two Rust key
matches (password-edit mode, normal mode) are rendered as first-match
conditional chains, with the catch-all character arm of edit mode kept
as a trailing match. -/
def handle_pvp_lobby_key (s : AppState) (key : KeyCode) (o : ApiOracle) :
    AppState × List ApiCall :=
  if s.editing_join_password then
    if key = KeyCode.esc ∨ key = KeyCode.enter then
      ({ s with editing_join_password := false }, [])
    else if key = KeyCode.backspace then
      ({ s with join_password := strPop s.join_password }, [])
    else
      match key with
      | KeyCode.char ch =>
        if s.join_password.length < 32 then
          ({ s with join_password := s.join_password.push ch }, [])
        else (s, [])
      | _ => (s, [])
  else
    if key = KeyCode.char 'b' then ({ s with screen := Screen.Home }, [])
    else if key = KeyCode.char 'q' then ({ s with should_quit := true }, [])
    else if key = KeyCode.up then
      ({ s with pvp_selected_index := s.pvp_selected_index - 1 }, [])
    else if key = KeyCode.down then
      if s.pvp_selected_index + 1 < s.pvp_games.length then
        ({ s with pvp_selected_index := s.pvp_selected_index + 1 }, [])
      else (s, [])
    else if key = KeyCode.char 'r' then
      match o.list_result with
      | Except.ok games =>
        ({ s with pvp_games := games, pvp_selected_index := 0 },
         [ApiCall.listOpenPvp])
      | Except.error err =>
        (show_error s ("Refresh failed: " ++ err), [ApiCall.listOpenPvp])
    else if key = KeyCode.char 'c' then
      ({ s with create_name := "", create_password := "",
                create_field_index := 0, screen := Screen.PvpCreate }, [])
    else if key = KeyCode.char 'p' then
      ({ s with editing_join_password := true }, [])
    else if key = KeyCode.char 'j' ∨ key = KeyCode.enter then
      if s.pvp_games.isEmpty then (s, [])
      else
        match s.pvp_games.get? s.pvp_selected_index with
        | none => (s, [])
        | some game =>
          let password :=
            if game.has_password then
              if s.join_password.isEmpty then none
              else some s.join_password
            else none
          let call := ApiCall.joinPvp s.player_id game.id password
          match o.join_result with
          | Except.ok joined =>
            ({ s with pvp_game := some joined, board_cursor := 0,
                      screen := Screen.PvpGame }, [call])
          | Except.error err =>
            (show_error s ("Join failed: " ++ err), [call])
    else (s, [])

/-- The `handle_pvp_create_key` method of `app.rs`; the Rust key match
is rendered as a first-match conditional chain, with the catch-all
character arm kept as a trailing match. -/
def handle_pvp_create_key (s : AppState) (key : KeyCode) (o : ApiOracle) :
    AppState × List ApiCall :=
  if key = KeyCode.esc ∨ key = KeyCode.char 'b' then
    ({ s with screen := Screen.PvpLobby }, [])
  else if key = KeyCode.tab ∨ key = KeyCode.down ∨ key = KeyCode.up then
    ({ s with create_field_index := (s.create_field_index + 1) % 2 }, [])
  else if key = KeyCode.backspace then
    if s.create_field_index = 0 then
      ({ s with create_name := strPop s.create_name }, [])
    else
      ({ s with create_password := strPop s.create_password }, [])
  else if key = KeyCode.enter then
    if (rustTrim s.create_name).length < 3 then
      (show_error s "Game name must be at least 3 chars", [])
    else
      let password :=
        if (rustTrim s.create_password).isEmpty then none
        else some (rustTrim s.create_password)
      let call := ApiCall.createPvp s.player_id (rustTrim s.create_name) password
      match o.create_pvp_result with
      | Except.ok game =>
        ({ s with pvp_game := some game, screen := Screen.PvpGame }, [call])
      | Except.error err =>
        (show_error s ("Create game failed: " ++ err), [call])
  else
    match key with
    | KeyCode.char ch =>
      if s.create_field_index = 0 then
        if s.create_name.length < 40 then
          ({ s with create_name := s.create_name.push ch }, [])
        else (s, [])
      else if s.create_password.length < 32 then
        ({ s with create_password := s.create_password.push ch }, [])
      else (s, [])
    | _ => (s, [])

/-- The `handle_pvp_game_key` method of `app.rs`. -/
def handle_pvp_game_key (s : AppState) (key : KeyCode) (o : ApiOracle) :
    AppState × List ApiCall :=
  if key = KeyCode.char 'b' then ({ s with screen := Screen.PvpLobby }, [])
  else if key = KeyCode.char 'q' then ({ s with should_quit := true }, [])
  else
    let s := update_board_cursor s key
    match s.pvp_game with
    | none => (s, [])
    | some game =>
      let player_symbol := player_symbol_for s.player_id game
      if (key = KeyCode.enter ∨ key = KeyCode.char ' ') ∧
          game.status = "IN_PROGRESS" ∧ player_symbol = game.current_turn then
        let call := ApiCall.playMove s.player_id game.id s.board_cursor
        match o.play_result with
        | Except.ok updated =>
          let s :=
            if is_game_finished updated then open_game_over s updated "PvP"
            else s
          ({ s with pvp_game := some updated }, [call])
        | Except.error err =>
          (show_error s ("Move failed: " ++ err), [call])
      else (s, [])

/-- The `handle_game_over_key` method of `app.rs`. -/
def handle_game_over_key (s : AppState) (key : KeyCode) : AppState :=
  if key = KeyCode.char 'q' then { s with should_quit := true }
  else if key = KeyCode.enter ∨ key = KeyCode.esc ∨ key = KeyCode.char 'b' ∨
      key = KeyCode.char 'm' then
    { s with screen := Screen.Home }
  else s

/-- The `handle_info_key` method of `app.rs`. -/
def handle_info_key (s : AppState) (key : KeyCode) : AppState :=
  if key = KeyCode.enter ∨ key = KeyCode.esc ∨ key = KeyCode.char 'b' then
    { s with screen := Screen.Home }
  else s

/-- The `refresh_remote_state_if_needed` method of `app.rs`. -/
def refresh_remote_state_if_needed (s : AppState) (now : Nat) (o : ApiOracle) :
    AppState × List ApiCall :=
  if now - s.last_poll_at < 1 then (s, [])
  else
    match s.screen with
    | Screen.PvpLobby =>
      (match o.list_result with
       | Except.ok games =>
         let s := { s with pvp_games := games }
         let s :=
           if s.pvp_games.length ≤ s.pvp_selected_index then
             { s with pvp_selected_index := s.pvp_games.length - 1 }
           else s
         ({ s with last_poll_at := now }, [ApiCall.listOpenPvp])
       | Except.error _ =>
         ({ s with last_poll_at := now }, [ApiCall.listOpenPvp]))
    | Screen.PvpGame =>
      (match s.pvp_game with
       | none => ({ s with last_poll_at := now }, [])
       | some g =>
         match o.get_result with
         | Except.ok game =>
           let s :=
             if is_game_finished game then open_game_over s game "PvP"
             else s
           ({ s with pvp_game := some game, last_poll_at := now },
            [ApiCall.getGame g.id])
         | Except.error _ =>
           ({ s with last_poll_at := now }, [ApiCall.getGame g.id]))
    | _ => ({ s with last_poll_at := now }, [])

/-- The `handle_key` dispatcher of `app.rs`. -/
def handle_key (s : AppState) (key : KeyCode) (o : ApiOracle) :
    AppState × List ApiCall :=
  match s.screen with
  | Screen.Home => handle_home_key s key o
  | Screen.SoloGame => handle_solo_key s key o
  | Screen.PvpLobby => handle_pvp_lobby_key s key o
  | Screen.PvpCreate => handle_pvp_create_key s key o
  | Screen.PvpGame => handle_pvp_game_key s key o
  | Screen.GameOver => (handle_game_over_key s key, [])
  | Screen.Info => (handle_info_key s key, [])

/-- One tick of the `run` loop, restricted to the controller-visible
events: a key press dispatch or a poll refresh. -/
def step (s : AppState) : Input → AppState × List ApiCall
  | Input.key k o => handle_key s k o
  | Input.tick now o => refresh_remote_state_if_needed s now o

/-- Fold of `step` over an event trace, accumulating the remote calls. -/
def runTrace (s : AppState) : List Input → AppState × List ApiCall
  | [] => (s, [])
  | i :: rest =>
    let r := step s i
    let r2 := runTrace r.1 rest
    (r2.1, r.2 ++ r2.2)

/-- URL and payload built by `ApiClient::create_solo_game` (`api.rs`). -/
def create_solo_request (base_url player_id : String) :
    String × CreateSoloRequest :=
  (base_url ++ "/games/solo",
   { player_id := player_id, client_name := "rust-tui-client" })

/-- URL and payload built by `ApiClient::create_pvp_game` (`api.rs`). -/
def create_pvp_request (base_url player_id name : String)
    (password : Option String) : String × CreatePvpRequest :=
  (base_url ++ "/games/pvp",
   { player_id := player_id, name := name, password := password })

/-- URL built by `ApiClient::list_open_pvp_games` (`api.rs`). -/
def list_open_pvp_request (base_url : String) : String :=
  base_url ++ "/games/pvp/open"

/-- URL and payload built by `ApiClient::join_pvp_game` (`api.rs`). -/
def join_pvp_request (base_url player_id game_id : String)
    (password : Option String) : String × JoinPvpRequest :=
  (base_url ++ "/games/pvp/" ++ game_id ++ "/join",
   { player_id := player_id, password := password })

/-- URL built by `ApiClient::get_game` (`api.rs`). -/
def get_game_request (base_url game_id : String) : String :=
  base_url ++ "/games/" ++ game_id

/-- URL and payload built by `ApiClient::play_move` (`api.rs`). -/
def play_move_request (base_url player_id game_id : String) (index : Nat) :
    String × PlayMoveRequest :=
  (base_url ++ "/games/" ++ game_id ++ "/move",
   { player_id := player_id, index := index })

/-- One cell label of `render_board_text` (`ui.rs`): Rust indexes
`board[idx]` with no bounds guard, which panics out of range; the panic
is modelled as `none`. -/
def board_cell_label (board : List (Option String)) (board_cursor idx : Nat) :
    Option String :=
  match board.get? idx with
  | none => none
  | some cell =>
    let value := cell.getD " "
    some (if board_cursor = idx then "[" ++ value ++ "]"
          else " " ++ value ++ " ")

/-- The `render_board_text` helper of `ui.rs` (free function form): the
3x3 loop is unrolled, cells joined with a bar, rows joined by the ruler
lines of the format string. -/
def render_board_text (board : List (Option String)) (board_cursor : Nat) :
    Option String :=
  (board_cell_label board board_cursor 0).bind fun c0 =>
  (board_cell_label board board_cursor 1).bind fun c1 =>
  (board_cell_label board board_cursor 2).bind fun c2 =>
  (board_cell_label board board_cursor 3).bind fun c3 =>
  (board_cell_label board board_cursor 4).bind fun c4 =>
  (board_cell_label board board_cursor 5).bind fun c5 =>
  (board_cell_label board board_cursor 6).bind fun c6 =>
  (board_cell_label board board_cursor 7).bind fun c7 =>
  (board_cell_label board board_cursor 8).bind fun c8 =>
  some (c0 ++ "|" ++ c1 ++ "|" ++ c2 ++ "\n-----------\n" ++
        c3 ++ "|" ++ c4 ++ "|" ++ c5 ++ "\n-----------\n" ++
        c6 ++ "|" ++ c7 ++ "|" ++ c8 ++ "\n\n1 2 3\n4 5 6\n7 8 9")

end AppModule

namespace MainMono

/-- The `show_error` method of `main.rs`. -/
def show_error (s : AppState) (message : String) : AppState :=
  { s with info_message := message, screen := Screen.Info }

/-- The `is_game_finished` helper of `main.rs`. -/
def is_game_finished (game : ApiGame) : Bool :=
  game.status == "WON" || game.status == "DRAW"

/-- The `player_symbol_for` method of `main.rs`. -/
def player_symbol_for (player_id : String) (game : ApiGame) : String :=
  if game.host_player_id = player_id then "X"
  else if game.guest_player_id = some player_id then "O"
  else "?"

/-- The `result_line` local computed inside `open_game_over` in
`main.rs`. -/
def game_over_result_line (player_id : String) (game : ApiGame) : String :=
  if game.status = "WON" then
    let winner := game.winner.getD "Unknown"
    let you := player_symbol_for player_id game
    let outcome := if winner = you then "You won!" else "You lost."
    "Winner: " ++ winner ++ " (" ++ outcome ++ ")"
  else
    "Result: Draw"

/-- The `open_game_over` method of `main.rs`. -/
def open_game_over (s : AppState) (game : ApiGame) (mode_label : String) :
    AppState :=
  { s with
    game_over_message :=
      mode_label ++ " game finished.\nGame id: " ++ game.id ++ "\n" ++
        game_over_result_line s.player_id game,
    screen := Screen.GameOver }

/-- The `update_board_cursor` method of `main.rs`. -/
def update_board_cursor (s : AppState) (key : KeyCode) : AppState :=
  let row := s.board_cursor / 3
  let col := s.board_cursor % 3
  match key with
  | KeyCode.left => { s with board_cursor := row * 3 + (col - 1) }
  | KeyCode.right => { s with board_cursor := row * 3 + min (col + 1) 2 }
  | KeyCode.up => { s with board_cursor := (row - 1) * 3 + col }
  | KeyCode.down => { s with board_cursor := min (row + 1) 2 * 3 + col }
  | KeyCode.char ch =>
    if Char.toNat '1' ≤ Char.toNat ch ∧ Char.toNat ch ≤ Char.toNat '9' then
      { s with board_cursor := Char.toNat ch - Char.toNat '1' }
    else
      { s with board_cursor := row * 3 + col }
  | _ => { s with board_cursor := row * 3 + col }

/-- The `handle_home_key` method of `main.rs`; the key match rendered
as a first-match conditional chain. -/
def handle_home_key (s : AppState) (key : KeyCode) (o : ApiOracle) :
    AppState × List ApiCall :=
  if key = KeyCode.char 'q' then ({ s with should_quit := true }, [])
  else if key = KeyCode.up then
    ({ s with home_index := s.home_index - 1 }, [])
  else if key = KeyCode.down then
    if s.home_index + 1 < 3 then
      ({ s with home_index := s.home_index + 1 }, [])
    else (s, [])
  else if key = KeyCode.enter then
    if s.home_index = 0 then
      match o.create_solo_result with
      | Except.ok game =>
        ({ s with solo_game := some game, board_cursor := 0,
                  screen := Screen.SoloGame },
         [ApiCall.createSolo s.player_id])
      | Except.error err =>
        (show_error s ("Could not start solo game: " ++ err),
         [ApiCall.createSolo s.player_id])
    else if s.home_index = 1 then
      match o.list_result with
      | Except.ok games =>
        ({ s with pvp_games := games, pvp_selected_index := 0,
                  screen := Screen.PvpLobby },
         [ApiCall.listOpenPvp])
      | Except.error err =>
        (show_error s ("Could not load PvP games: " ++ err),
         [ApiCall.listOpenPvp])
    else ({ s with should_quit := true }, [])
  else (s, [])

/-- The `handle_solo_key` method of `main.rs`. -/
def handle_solo_key (s : AppState) (key : KeyCode) (o : ApiOracle) :
    AppState × List ApiCall :=
  if key = KeyCode.char 'b' then ({ s with screen := Screen.Home }, [])
  else if key = KeyCode.char 'q' then ({ s with should_quit := true }, [])
  else
    let s := update_board_cursor s key
    match s.solo_game with
    | none => (s, [])
    | some game =>
      if key = KeyCode.enter ∨ key = KeyCode.char ' ' then
        if game.current_turn = "X" ∧ game.status = "IN_PROGRESS" then
          let call := ApiCall.playMove s.player_id game.id s.board_cursor
          match o.play_result with
          | Except.ok updated =>
            let s :=
              if is_game_finished updated then open_game_over s updated "Solo"
              else s
            ({ s with solo_game := some updated }, [call])
          | Except.error err =>
            (show_error s ("Move failed: " ++ err), [call])
        else (s, [])
      else (s, [])

/-- The `handle_pvp_lobby_key` method of `main.rs`; the two key matches
rendered as first-match conditional chains, the catch-all character arm
of edit mode kept as a trailing match. -/
def handle_pvp_lobby_key (s : AppState) (key : KeyCode) (o : ApiOracle) :
    AppState × List ApiCall :=
  if s.editing_join_password then
    if key = KeyCode.esc ∨ key = KeyCode.enter then
      ({ s with editing_join_password := false }, [])
    else if key = KeyCode.backspace then
      ({ s with join_password := strPop s.join_password }, [])
    else
      match key with
      | KeyCode.char ch =>
        if s.join_password.length < 32 then
          ({ s with join_password := s.join_password.push ch }, [])
        else (s, [])
      | _ => (s, [])
  else
    if key = KeyCode.char 'b' then ({ s with screen := Screen.Home }, [])
    else if key = KeyCode.char 'q' then ({ s with should_quit := true }, [])
    else if key = KeyCode.up then
      ({ s with pvp_selected_index := s.pvp_selected_index - 1 }, [])
    else if key = KeyCode.down then
      if s.pvp_selected_index + 1 < s.pvp_games.length then
        ({ s with pvp_selected_index := s.pvp_selected_index + 1 }, [])
      else (s, [])
    else if key = KeyCode.char 'r' then
      match o.list_result with
      | Except.ok games =>
        ({ s with pvp_games := games, pvp_selected_index := 0 },
         [ApiCall.listOpenPvp])
      | Except.error err =>
        (show_error s ("Refresh failed: " ++ err), [ApiCall.listOpenPvp])
    else if key = KeyCode.char 'c' then
      ({ s with create_name := "", create_password := "",
                create_field_index := 0, screen := Screen.PvpCreate }, [])
    else if key = KeyCode.char 'p' then
      ({ s with editing_join_password := true }, [])
    else if key = KeyCode.char 'j' ∨ key = KeyCode.enter then
      if s.pvp_games.isEmpty then (s, [])
      else
        match s.pvp_games.get? s.pvp_selected_index with
        | none => (s, [])
        | some game =>
          let password :=
            if game.has_password then
              if s.join_password.isEmpty then none
              else some s.join_password
            else none
          let call := ApiCall.joinPvp s.player_id game.id password
          match o.join_result with
          | Except.ok joined =>
            ({ s with pvp_game := some joined, board_cursor := 0,
                      screen := Screen.PvpGame }, [call])
          | Except.error err =>
            (show_error s ("Join failed: " ++ err), [call])
    else (s, [])

/-- The `handle_pvp_create_key` method of `main.rs`; the key match
rendered as a first-match conditional chain, the catch-all character
arm kept as a trailing match. -/
def handle_pvp_create_key (s : AppState) (key : KeyCode) (o : ApiOracle) :
    AppState × List ApiCall :=
  if key = KeyCode.esc ∨ key = KeyCode.char 'b' then
    ({ s with screen := Screen.PvpLobby }, [])
  else if key = KeyCode.tab ∨ key = KeyCode.down ∨ key = KeyCode.up then
    ({ s with create_field_index := (s.create_field_index + 1) % 2 }, [])
  else if key = KeyCode.backspace then
    if s.create_field_index = 0 then
      ({ s with create_name := strPop s.create_name }, [])
    else
      ({ s with create_password := strPop s.create_password }, [])
  else if key = KeyCode.enter then
    if (rustTrim s.create_name).length < 3 then
      (show_error s "Game name must be at least 3 chars", [])
    else
      let password :=
        if (rustTrim s.create_password).isEmpty then none
        else some (rustTrim s.create_password)
      let call := ApiCall.createPvp s.player_id (rustTrim s.create_name) password
      match o.create_pvp_result with
      | Except.ok game =>
        ({ s with pvp_game := some game, screen := Screen.PvpGame }, [call])
      | Except.error err =>
        (show_error s ("Create game failed: " ++ err), [call])
  else
    match key with
    | KeyCode.char ch =>
      if s.create_field_index = 0 then
        if s.create_name.length < 40 then
          ({ s with create_name := s.create_name.push ch }, [])
        else (s, [])
      else if s.create_password.length < 32 then
        ({ s with create_password := s.create_password.push ch }, [])
      else (s, [])
    | _ => (s, [])

/-- The `handle_pvp_game_key` method of `main.rs`. -/
def handle_pvp_game_key (s : AppState) (key : KeyCode) (o : ApiOracle) :
    AppState × List ApiCall :=
  if key = KeyCode.char 'b' then ({ s with screen := Screen.PvpLobby }, [])
  else if key = KeyCode.char 'q' then ({ s with should_quit := true }, [])
  else
    let s := update_board_cursor s key
    match s.pvp_game with
    | none => (s, [])
    | some game =>
      let player_symbol := player_symbol_for s.player_id game
      if (key = KeyCode.enter ∨ key = KeyCode.char ' ') ∧
          game.status = "IN_PROGRESS" ∧ player_symbol = game.current_turn then
        let call := ApiCall.playMove s.player_id game.id s.board_cursor
        match o.play_result with
        | Except.ok updated =>
          let s :=
            if is_game_finished updated then open_game_over s updated "PvP"
            else s
          ({ s with pvp_game := some updated }, [call])
        | Except.error err =>
          (show_error s ("Move failed: " ++ err), [call])
      else (s, [])

/-- The `handle_game_over_key` method of `main.rs`. -/
def handle_game_over_key (s : AppState) (key : KeyCode) : AppState :=
  if key = KeyCode.char 'q' then { s with should_quit := true }
  else if key = KeyCode.enter ∨ key = KeyCode.esc ∨ key = KeyCode.char 'b' ∨
      key = KeyCode.char 'm' then
    { s with screen := Screen.Home }
  else s

/-- The `handle_info_key` method of `main.rs`. -/
def handle_info_key (s : AppState) (key : KeyCode) : AppState :=
  if key = KeyCode.enter ∨ key = KeyCode.esc ∨ key = KeyCode.char 'b' then
    { s with screen := Screen.Home }
  else s

/-- The `refresh_remote_state_if_needed` method of `main.rs`. -/
def refresh_remote_state_if_needed (s : AppState) (now : Nat) (o : ApiOracle) :
    AppState × List ApiCall :=
  if now - s.last_poll_at < 1 then (s, [])
  else
    match s.screen with
    | Screen.PvpLobby =>
      (match o.list_result with
       | Except.ok games =>
         let s := { s with pvp_games := games }
         let s :=
           if s.pvp_games.length ≤ s.pvp_selected_index then
             { s with pvp_selected_index := s.pvp_games.length - 1 }
           else s
         ({ s with last_poll_at := now }, [ApiCall.listOpenPvp])
       | Except.error _ =>
         ({ s with last_poll_at := now }, [ApiCall.listOpenPvp]))
    | Screen.PvpGame =>
      (match s.pvp_game with
       | none => ({ s with last_poll_at := now }, [])
       | some g =>
         match o.get_result with
         | Except.ok game =>
           let s :=
             if is_game_finished game then open_game_over s game "PvP"
             else s
           ({ s with pvp_game := some game, last_poll_at := now },
            [ApiCall.getGame g.id])
         | Except.error _ =>
           ({ s with last_poll_at := now }, [ApiCall.getGame g.id]))
    | _ => ({ s with last_poll_at := now }, [])

/-- The `handle_key` dispatcher of `main.rs`. -/
def handle_key (s : AppState) (key : KeyCode) (o : ApiOracle) :
    AppState × List ApiCall :=
  match s.screen with
  | Screen.Home => handle_home_key s key o
  | Screen.SoloGame => handle_solo_key s key o
  | Screen.PvpLobby => handle_pvp_lobby_key s key o
  | Screen.PvpCreate => handle_pvp_create_key s key o
  | Screen.PvpGame => handle_pvp_game_key s key o
  | Screen.GameOver => (handle_game_over_key s key, [])
  | Screen.Info => (handle_info_key s key, [])

/-- One tick of the monolith's `run` loop, controller-visible events
only. -/
def step (s : AppState) : Input → AppState × List ApiCall
  | Input.key k o => handle_key s k o
  | Input.tick now o => refresh_remote_state_if_needed s now o

/-- Fold of `step` over an event trace, accumulating the remote calls. -/
def runTrace (s : AppState) : List Input → AppState × List ApiCall
  | [] => (s, [])
  | i :: rest =>
    let r := step s i
    let r2 := runTrace r.1 rest
    (r2.1, r.2 ++ r2.2)

/-- URL and payload built by the inline `create_solo_game` of `main.rs`. -/
def create_solo_request (base_url player_id : String) :
    String × CreateSoloRequest :=
  (base_url ++ "/games/solo",
   { player_id := player_id, client_name := "rust-tui-client" })

/-- URL and payload built by the inline `create_pvp_game` of `main.rs`. -/
def create_pvp_request (base_url player_id name : String)
    (password : Option String) : String × CreatePvpRequest :=
  (base_url ++ "/games/pvp",
   { player_id := player_id, name := name, password := password })

/-- URL built by the inline `list_open_pvp_games` of `main.rs`. -/
def list_open_pvp_request (base_url : String) : String :=
  base_url ++ "/games/pvp/open"

/-- URL and payload built by the inline `join_pvp_game` of `main.rs`. -/
def join_pvp_request (base_url player_id game_id : String)
    (password : Option String) : String × JoinPvpRequest :=
  (base_url ++ "/games/pvp/" ++ game_id ++ "/join",
   { player_id := player_id, password := password })

/-- URL built by the inline `get_game` of `main.rs`. -/
def get_game_request (base_url game_id : String) : String :=
  base_url ++ "/games/" ++ game_id

/-- URL and payload built by the inline `play_move` of `main.rs`. -/
def play_move_request (base_url player_id game_id : String) (index : Nat) :
    String × PlayMoveRequest :=
  (base_url ++ "/games/" ++ game_id ++ "/move",
   { player_id := player_id, index := index })

/-- One cell label of the `render_board_text` method of `main.rs`; the
unguarded `board[idx]` panic is modelled as `none`. -/
def board_cell_label (board : List (Option String)) (board_cursor idx : Nat) :
    Option String :=
  match board.get? idx with
  | none => none
  | some cell =>
    let value := cell.getD " "
    some (if board_cursor = idx then "[" ++ value ++ "]"
          else " " ++ value ++ " ")

/-- The `render_board_text` method of `main.rs`, 3x3 loop unrolled. -/
def render_board_text (board : List (Option String)) (board_cursor : Nat) :
    Option String :=
  (board_cell_label board board_cursor 0).bind fun c0 =>
  (board_cell_label board board_cursor 1).bind fun c1 =>
  (board_cell_label board board_cursor 2).bind fun c2 =>
  (board_cell_label board board_cursor 3).bind fun c3 =>
  (board_cell_label board board_cursor 4).bind fun c4 =>
  (board_cell_label board board_cursor 5).bind fun c5 =>
  (board_cell_label board board_cursor 6).bind fun c6 =>
  (board_cell_label board board_cursor 7).bind fun c7 =>
  (board_cell_label board board_cursor 8).bind fun c8 =>
  some (c0 ++ "|" ++ c1 ++ "|" ++ c2 ++ "\n-----------\n" ++
        c3 ++ "|" ++ c4 ++ "|" ++ c5 ++ "\n-----------\n" ++
        c6 ++ "|" ++ c7 ++ "|" ++ c8 ++ "\n\n1 2 3\n4 5 6\n7 8 9")

end MainMono

/-- A nine-cell empty board, the shape the server sends for a fresh
game. -/
def emptyBoard : List (Option String) :=
  [none, none, none, none, none, none, none, none, none]

/-- A concrete in-progress game snapshot used to instantiate theorems. -/
def baseGame : ApiGame :=
  { id := "g1", mode := "PVP", name := some "room one",
    host_player_id := "alice", guest_player_id := some "bob",
    board := emptyBoard, current_turn := "X", status := "IN_PROGRESS",
    winner := none, has_password := false }

/-- A concrete freshly-launched controller state. -/
def baseState : AppState :=
  { player_id := "alice", screen := Screen.Home, home_index := 0,
    board_cursor := 0, solo_game := none, pvp_game := none,
    pvp_games := [], pvp_selected_index := 0, create_name := "",
    create_password := "", create_field_index := 0, join_password := "",
    editing_join_password := false, game_over_message := "",
    info_message := "", should_quit := false, last_poll_at := 0 }

/-- An oracle on which every remote operation succeeds with
`baseGame`. -/
def okOracle : ApiOracle :=
  { create_solo_result := Except.ok baseGame,
    create_pvp_result := Except.ok baseGame,
    list_result := Except.ok [baseGame],
    join_result := Except.ok baseGame,
    get_result := Except.ok baseGame,
    play_result := Except.ok baseGame }

/-- An oracle on which every remote operation fails. -/
def errOracle : ApiOracle :=
  { create_solo_result := Except.error "boom",
    create_pvp_result := Except.error "boom",
    list_result := Except.error "boom",
    join_result := Except.error "boom",
    get_result := Except.error "boom",
    play_result := Except.error "boom" }

/-- A concrete state sitting on the lobby screen with one cached open
game. -/
def lobbyFixtureState : AppState :=
  { baseState with screen := Screen.PvpLobby, pvp_games := [baseGame] }

theorem update_board_cursor_le_eight (s : AppState) (k : KeyCode)
    (h : s.board_cursor ≤ 8) :
    (AppModule.update_board_cursor s k).board_cursor ≤ 8 := by
  have h1 : Char.toNat '1' = 49 := rfl
  have h9 : Char.toNat '9' = 57 := rfl
  cases k
  all_goals simp only [AppModule.update_board_cursor]
  all_goals
    first
      | omega
      | (split
         all_goals simp_all
         all_goals omega)

/-- C2: starting from a cursor in `[0,8]`, any sequence of key inputs
run through `update_board_cursor` keeps the cursor in `[0,8]`; a digit
key in `1..9` sets the cursor to exactly digit minus one regardless of
the prior value; and moving left/right/up/down past an edge holds
position (row and column clamp separately, no wraparound). -/
theorem board_cursor_clamping :
    (∀ (s : AppState), s.board_cursor ≤ 8 → ∀ keys : List KeyCode,
      (keys.foldl AppModule.update_board_cursor s).board_cursor ≤ 8) ∧
    (∀ (s : AppState) (ch : Char),
      Char.toNat '1' ≤ Char.toNat ch → Char.toNat ch ≤ Char.toNat '9' →
      (AppModule.update_board_cursor s (KeyCode.char ch)).board_cursor =
        Char.toNat ch - Char.toNat '1') ∧
    (∀ s : AppState, s.board_cursor ≤ 8 →
      (s.board_cursor % 3 = 0 →
        (AppModule.update_board_cursor s KeyCode.left).board_cursor =
          s.board_cursor) ∧
      (s.board_cursor % 3 = 2 →
        (AppModule.update_board_cursor s KeyCode.right).board_cursor =
          s.board_cursor) ∧
      (s.board_cursor / 3 = 0 →
        (AppModule.update_board_cursor s KeyCode.up).board_cursor =
          s.board_cursor) ∧
      (s.board_cursor / 3 = 2 →
        (AppModule.update_board_cursor s KeyCode.down).board_cursor =
          s.board_cursor)) := by
  refine ⟨?_, ?_, ?_⟩
  · intro s h keys
    induction keys generalizing s with
    | nil => simpa using h
    | cons k rest ih => exact ih _ (update_board_cursor_le_eight s k h)
  · intro s ch hl hu
    have hl49 : 49 ≤ Char.toNat ch := hl
    have hu57 : Char.toNat ch ≤ 57 := hu
    simp [AppModule.update_board_cursor, hl49, hu57]
  · intro s h
    refine ⟨?_, ?_, ?_, ?_⟩ <;> intro he <;>
      simp [AppModule.update_board_cursor] <;> omega

theorem board_cursor_clamping_witness :
    baseState.board_cursor ≤ 8 ∧
    (([KeyCode.left, KeyCode.down, KeyCode.right, KeyCode.up].foldl
        AppModule.update_board_cursor baseState).board_cursor ≤ 8) ∧
    ((AppModule.update_board_cursor baseState
        (KeyCode.char '7')).board_cursor =
      Char.toNat '7' - Char.toNat '1') ∧
    ((AppModule.update_board_cursor baseState KeyCode.left).board_cursor =
      baseState.board_cursor) :=
  ⟨by decide, board_cursor_clamping.1 baseState (by decide) _,
   board_cursor_clamping.2.1 baseState '7' (by decide) (by decide),
   (board_cursor_clamping.2.2 baseState (by decide)).1 (by decide)⟩

/-- C7: once the poll gate has elapsed, a failed remote fetch on
`PvpLobby` or `PvpGame` leaves the entire state unchanged except the
poll timestamp, which advances to the current instant; in particular
the cached list, selection index and cached game view are kept, the
screen stays put, and no message is set. -/
theorem poll_failure_preserves_state :
    ∀ (s : AppState) (now : Nat) (o : ApiOracle) (e : String),
      1 ≤ now - s.last_poll_at →
      (s.screen = Screen.PvpLobby → o.list_result = Except.error e →
        AppModule.refresh_remote_state_if_needed s now o =
          ({ s with last_poll_at := now }, [ApiCall.listOpenPvp])) ∧
      (∀ g, s.screen = Screen.PvpGame → s.pvp_game = some g →
        o.get_result = Except.error e →
        AppModule.refresh_remote_state_if_needed s now o =
          ({ s with last_poll_at := now }, [ApiCall.getGame g.id])) := by
  intro s now o e hg
  have hlt : ¬ now - s.last_poll_at < 1 := by omega
  constructor
  · intro hs hl
    simp [AppModule.refresh_remote_state_if_needed, hlt, hs, hl]
  · intro g hs hp hl
    simp [AppModule.refresh_remote_state_if_needed, hlt, hs, hp, hl]

/-- LobbyState selection-index invariant of the spec's data model:
within bounds whenever the list is non-empty, pinned to zero when it is
empty. -/
def lobby_invariant (s : AppState) : Prop :=
  (s.pvp_games.length = 0 → s.pvp_selected_index = 0) ∧
  (0 < s.pvp_games.length → s.pvp_selected_index < s.pvp_games.length)

instance (s : AppState) : Decidable (lobby_invariant s) := by
  unfold lobby_invariant; infer_instance

/-- An oracle whose list fetch succeeds with an empty list (all other
operations succeed with `baseGame`). -/
def emptyListOracle : ApiOracle :=
  { okOracle with list_result := Except.ok [] }

theorem handle_pvp_lobby_key_keeps_lobby_invariant (s : AppState)
    (k : KeyCode) (o : ApiOracle) (h : lobby_invariant s) :
    lobby_invariant (AppModule.handle_pvp_lobby_key s k o).1 := by
  obtain ⟨h0, h1⟩ := h
  unfold AppModule.handle_pvp_lobby_key
  by_cases he : s.editing_join_password = true
  · rw [if_pos he]
    by_cases h2 : k = KeyCode.esc ∨ k = KeyCode.enter
    · rw [if_pos h2]; exact ⟨h0, h1⟩
    rw [if_neg h2]
    by_cases h3 : k = KeyCode.backspace
    · rw [if_pos h3]; exact ⟨h0, h1⟩
    rw [if_neg h3]
    split
    · split <;> exact ⟨h0, h1⟩
    · exact ⟨h0, h1⟩
  · rw [if_neg he]
    by_cases hb : k = KeyCode.char 'b'
    · rw [if_pos hb]; exact ⟨h0, h1⟩
    rw [if_neg hb]
    by_cases hq : k = KeyCode.char 'q'
    · rw [if_pos hq]; exact ⟨h0, h1⟩
    rw [if_neg hq]
    by_cases hu : k = KeyCode.up
    · rw [if_pos hu]
      refine ⟨fun hlen => ?_, fun hlen => ?_⟩
      · have hz := h0 hlen
        show s.pvp_selected_index - 1 = 0
        omega
      · have hlt := h1 hlen
        show s.pvp_selected_index - 1 < s.pvp_games.length
        omega
    rw [if_neg hu]
    by_cases hd : k = KeyCode.down
    · rw [if_pos hd]
      by_cases hlt : s.pvp_selected_index + 1 < s.pvp_games.length
      · rw [if_pos hlt]
        refine ⟨fun hlen => ?_, fun hlen => ?_⟩
        · have hz : s.pvp_games.length = 0 := hlen
          show s.pvp_selected_index + 1 = 0
          omega
        · show s.pvp_selected_index + 1 < s.pvp_games.length
          exact hlt
      · rw [if_neg hlt]; exact ⟨h0, h1⟩
    rw [if_neg hd]
    by_cases hr : k = KeyCode.char 'r'
    · rw [if_pos hr]
      rcases hlr : o.list_result with e | games
      · exact ⟨h0, h1⟩
      · exact ⟨fun _ => rfl, fun hlen => hlen⟩
    rw [if_neg hr]
    by_cases hc : k = KeyCode.char 'c'
    · rw [if_pos hc]; exact ⟨h0, h1⟩
    rw [if_neg hc]
    by_cases hp : k = KeyCode.char 'p'
    · rw [if_pos hp]; exact ⟨h0, h1⟩
    rw [if_neg hp]
    by_cases hj : k = KeyCode.char 'j' ∨ k = KeyCode.enter
    · rw [if_pos hj]
      by_cases hemp : s.pvp_games.isEmpty = true
      · rw [if_pos hemp]; exact ⟨h0, h1⟩
      rw [if_neg hemp]
      rcases hget : s.pvp_games.get? s.pvp_selected_index with _ | g
      · exact ⟨h0, h1⟩
      · rcases hjr : o.join_result with e2 | j <;> exact ⟨h0, h1⟩
    · rw [if_neg hj]; exact ⟨h0, h1⟩

theorem refresh_keeps_lobby_invariant (s : AppState) (now : Nat)
    (o : ApiOracle) (h : lobby_invariant s) :
    lobby_invariant (AppModule.refresh_remote_state_if_needed s now o).1 := by
  obtain ⟨h0, h1⟩ := h
  unfold AppModule.refresh_remote_state_if_needed
  by_cases hg : now - s.last_poll_at < 1
  · rw [if_pos hg]; exact ⟨h0, h1⟩
  rw [if_neg hg]
  cases hs : s.screen
  · exact ⟨h0, h1⟩
  · exact ⟨h0, h1⟩
  ·
    rcases hlr : o.list_result with e | games
    · exact ⟨h0, h1⟩
    · dsimp only
      by_cases hclamp : games.length ≤ s.pvp_selected_index
      · rw [if_pos hclamp]
        refine ⟨fun hlen => ?_, fun hlen => ?_⟩
        · have hz : games.length = 0 := hlen
          show games.length - 1 = 0
          omega
        · have hpos : 0 < games.length := hlen
          show games.length - 1 < games.length
          omega
      · rw [if_neg hclamp]
        refine ⟨fun hlen => ?_, fun hlen => ?_⟩
        · have hz : games.length = 0 := hlen
          show s.pvp_selected_index = 0
          omega
        · show s.pvp_selected_index < games.length
          omega
  · exact ⟨h0, h1⟩
  · rcases hpg : s.pvp_game with _ | g
    · exact ⟨h0, h1⟩
    · rcases hgr : o.get_result with e | game
      · exact ⟨h0, h1⟩
      · dsimp only
        by_cases hfin : AppModule.is_game_finished game = true
        · rw [if_pos hfin]; exact ⟨h0, h1⟩
        · rw [if_neg hfin]; exact ⟨h0, h1⟩
  · exact ⟨h0, h1⟩
  · exact ⟨h0, h1⟩

/-- C8: the lobby selection index invariant is preserved by every key
handled on the `PvpLobby` screen (up/down clamping, refresh reset,
join, navigation, password editing) and by every poll refresh,
including a refresh that shrinks or empties the list. -/
theorem lobby_selection_index_invariant :
    (∀ (s : AppState) (k : KeyCode) (o : ApiOracle), lobby_invariant s →
      lobby_invariant (AppModule.handle_pvp_lobby_key s k o).1) ∧
    (∀ (s : AppState) (now : Nat) (o : ApiOracle), lobby_invariant s →
      lobby_invariant
        (AppModule.refresh_remote_state_if_needed s now o).1) :=
  ⟨handle_pvp_lobby_key_keeps_lobby_invariant,
   refresh_keeps_lobby_invariant⟩

theorem lobby_selection_index_invariant_witness :
    lobby_invariant lobbyFixtureState ∧
    lobby_invariant
      (AppModule.refresh_remote_state_if_needed lobbyFixtureState 5
        emptyListOracle).1 :=
  ⟨by decide,
   lobby_selection_index_invariant.2 lobbyFixtureState 5 emptyListOracle
     (by decide)⟩

/-- C4: a join attempt (j/Enter in normal lobby mode, selected entry
resolved) sends no password field when the entry is not password-gated
or when it is gated and the buffer is empty, and sends the buffered
password verbatim when the entry is gated and the buffer is
non-empty. -/
theorem join_password_selection :
    ∀ (s : AppState) (o : ApiOracle) (k : KeyCode) (g : ApiGame),
      s.editing_join_password = false →
      (k = KeyCode.char 'j' ∨ k = KeyCode.enter) →
      s.pvp_games.get? s.pvp_selected_index = some g →
      (g.has_password = true → s.join_password.isEmpty = true →
        (AppModule.handle_pvp_lobby_key s k o).2 =
          [ApiCall.joinPvp s.player_id g.id none]) ∧
      (g.has_password = true → s.join_password.isEmpty = false →
        (AppModule.handle_pvp_lobby_key s k o).2 =
          [ApiCall.joinPvp s.player_id g.id (some s.join_password)]) ∧
      (g.has_password = false →
        (AppModule.handle_pvp_lobby_key s k o).2 =
          [ApiCall.joinPvp s.player_id g.id none]) := by
  intro s o k g he hk hget
  have hnil : s.pvp_games.isEmpty = false := by
    cases hl : s.pvp_games with
    | nil => rw [hl] at hget; simp at hget
    | cons a t => simp [hl]
  rcases hk with rfl | rfl <;>
    refine ⟨?_, ?_, ?_⟩ <;> intro hpw <;> (try intro hbuf) <;>
      rcases hjr : o.join_result with j | e2 <;>
        simp_all [AppModule.handle_pvp_lobby_key, AppModule.show_error]

theorem join_password_selection_witness :
    lobbyFixtureState.editing_join_password = false ∧
    lobbyFixtureState.pvp_games.get? lobbyFixtureState.pvp_selected_index =
      some baseGame ∧
    (baseGame.has_password = false →
      (AppModule.handle_pvp_lobby_key lobbyFixtureState KeyCode.enter
          okOracle).2 =
        [ApiCall.joinPvp lobbyFixtureState.player_id baseGame.id none]) :=
  ⟨rfl, rfl,
   (join_password_selection lobbyFixtureState okOracle KeyCode.enter baseGame
      rfl (Or.inr rfl) rfl).2.2⟩

theorem poll_failure_preserves_state_witness :
    (1 ≤ 5 - lobbyFixtureState.last_poll_at) ∧
    AppModule.refresh_remote_state_if_needed lobbyFixtureState 5 errOracle =
      ({ lobbyFixtureState with last_poll_at := 5 },
       [ApiCall.listOpenPvp]) :=
  ⟨by decide,
   (poll_failure_preserves_state lobbyFixtureState 5 errOracle "boom"
      (by decide)).1 rfl rfl⟩

/-- A concrete state on the create screen whose name is too short. -/
def createShortState : AppState :=
  { baseState with screen := Screen.PvpCreate, create_name := "ab" }

/-- A concrete state on the create screen with a valid name and empty
password. -/
def createOkState : AppState :=
  { baseState with screen := Screen.PvpCreate, create_name := "abc" }

/-- A concrete state on the create screen with a valid name and a
whitespace-padded password. -/
def createPaddedState : AppState :=
  { baseState with screen := Screen.PvpCreate, create_name := "abc",
                   create_password := "  hunter2  " }

/-- C5: on PvpCreate confirm, a trimmed name shorter than 3 characters
surfaces the validation message on the Info screen and issues no remote
call; a trimmed name of length at least 3 issues exactly one create
call carrying the trimmed name, with no password field when the
trimmed password is empty and with the trimmed password when it is
non-empty. -/
theorem pvp_create_validation :
    ∀ (s : AppState) (o : ApiOracle),
      ((rustTrim s.create_name).length < 3 →
        AppModule.handle_pvp_create_key s KeyCode.enter o =
          ({ s with info_message := "Game name must be at least 3 chars",
                    screen := Screen.Info }, [])) ∧
      (3 ≤ (rustTrim s.create_name).length →
        (rustTrim s.create_password).isEmpty = true →
        (AppModule.handle_pvp_create_key s KeyCode.enter o).2 =
          [ApiCall.createPvp s.player_id (rustTrim s.create_name) none]) ∧
      (3 ≤ (rustTrim s.create_name).length →
        (rustTrim s.create_password).isEmpty = false →
        (AppModule.handle_pvp_create_key s KeyCode.enter o).2 =
          [ApiCall.createPvp s.player_id (rustTrim s.create_name)
            (some (rustTrim s.create_password))]) := by
  intro s o
  refine ⟨fun hshort => ?_, fun hlong hemp => ?_, fun hlong hemp => ?_⟩
  · simp [AppModule.handle_pvp_create_key, AppModule.show_error, hshort]
  · rcases hc : o.create_pvp_result with e | g <;>
      simp [AppModule.handle_pvp_create_key, AppModule.show_error, hc, hemp,
        Nat.not_lt.mpr hlong]
  · rcases hc : o.create_pvp_result with e | g <;>
      simp [AppModule.handle_pvp_create_key, AppModule.show_error, hc, hemp,
        Nat.not_lt.mpr hlong]

theorem pvp_create_validation_witness :
    ((rustTrim createShortState.create_name).length < 3 ∧
      AppModule.handle_pvp_create_key createShortState KeyCode.enter okOracle =
        ({ createShortState with
            info_message := "Game name must be at least 3 chars",
            screen := Screen.Info }, [])) ∧
    (3 ≤ (rustTrim createOkState.create_name).length ∧
      (rustTrim createOkState.create_password).isEmpty = true ∧
      (AppModule.handle_pvp_create_key createOkState KeyCode.enter
          okOracle).2 =
        [ApiCall.createPvp createOkState.player_id
          (rustTrim createOkState.create_name) none]) ∧
    (3 ≤ (rustTrim createPaddedState.create_name).length ∧
      (rustTrim createPaddedState.create_password).isEmpty = false ∧
      (AppModule.handle_pvp_create_key createPaddedState KeyCode.enter
          okOracle).2 =
        [ApiCall.createPvp createPaddedState.player_id
          (rustTrim createPaddedState.create_name)
          (some (rustTrim createPaddedState.create_password))]) :=
  ⟨⟨by decide,
    (pvp_create_validation createShortState okOracle).1 (by decide)⟩,
   ⟨by decide, by decide,
    (pvp_create_validation createOkState okOracle).2.1 (by decide)
      (by decide)⟩,
   ⟨by decide, by decide,
    (pvp_create_validation createPaddedState okOracle).2.2 (by decide)
      (by decide)⟩⟩

/-- A concrete state on the create screen with a valid name and the
board cursor parked at cell 5 from an earlier game. -/
def createCursorState : AppState :=
  { baseState with screen := Screen.PvpCreate, create_name := "abcd",
                   board_cursor := 5 }

/-- C3 counterexample: creating a PvP game from the create screen
(valid name, create succeeds, the controller enters `PvpGame`) leaves
the board cursor at its prior value 5 instead of resetting it to 0. -/
theorem pvp_create_does_not_reset_cursor :
    (AppModule.handle_pvp_create_key createCursorState KeyCode.enter
        okOracle).1.screen = Screen.PvpGame ∧
    (AppModule.handle_pvp_create_key createCursorState KeyCode.enter
        okOracle).1.board_cursor = 5 := by
  constructor <;> decide

/-- C3 (amended): the board cursor is reset to 0 on entering a game via
successful solo creation from Home and via successful join from the
lobby; entering `PvpGame` via successful creation from the create
screen leaves the cursor unchanged. -/
theorem new_game_cursor_reset :
    (∀ (s : AppState) (o : ApiOracle) (g : ApiGame),
      s.home_index = 0 → o.create_solo_result = Except.ok g →
      (AppModule.handle_home_key s KeyCode.enter o).1.board_cursor = 0 ∧
      (AppModule.handle_home_key s KeyCode.enter o).1.screen =
        Screen.SoloGame) ∧
    (∀ (s : AppState) (o : ApiOracle) (g j : ApiGame) (k : KeyCode),
      s.editing_join_password = false →
      (k = KeyCode.char 'j' ∨ k = KeyCode.enter) →
      s.pvp_games.get? s.pvp_selected_index = some g →
      o.join_result = Except.ok j →
      (AppModule.handle_pvp_lobby_key s k o).1.board_cursor = 0 ∧
      (AppModule.handle_pvp_lobby_key s k o).1.screen = Screen.PvpGame) ∧
    (∀ (s : AppState) (o : ApiOracle) (g : ApiGame),
      3 ≤ (rustTrim s.create_name).length →
      o.create_pvp_result = Except.ok g →
      (AppModule.handle_pvp_create_key s KeyCode.enter o).1.board_cursor =
        s.board_cursor ∧
      (AppModule.handle_pvp_create_key s KeyCode.enter o).1.screen =
        Screen.PvpGame) := by
  refine ⟨?_, ?_, ?_⟩
  · intro s o g h0 hok
    constructor <;> simp [AppModule.handle_home_key, h0, hok]
  · intro s o g j k he hk hget hok
    have hnil : s.pvp_games.isEmpty = false := by
      cases hl : s.pvp_games with
      | nil => rw [hl] at hget; simp at hget
      | cons a t => simp [hl]
    rcases hk with rfl | rfl <;>
      constructor <;>
        simp_all [AppModule.handle_pvp_lobby_key]
  · intro s o g hlong hok
    constructor <;>
      simp [AppModule.handle_pvp_create_key, hok, Nat.not_lt.mpr hlong]

theorem new_game_cursor_reset_witness :
    (baseState.home_index = 0 ∧
      (AppModule.handle_home_key baseState KeyCode.enter
          okOracle).1.board_cursor = 0) ∧
    (lobbyFixtureState.editing_join_password = false ∧
      (AppModule.handle_pvp_lobby_key lobbyFixtureState KeyCode.enter
          okOracle).1.board_cursor = 0) ∧
    ((AppModule.handle_pvp_create_key createCursorState KeyCode.enter
          okOracle).1.board_cursor = createCursorState.board_cursor) :=
  ⟨⟨rfl, (new_game_cursor_reset.1 baseState okOracle baseGame rfl rfl).1⟩,
   ⟨rfl, (new_game_cursor_reset.2.1 lobbyFixtureState okOracle baseGame
      baseGame KeyCode.enter rfl (Or.inr rfl) rfl rfl).1⟩,
   (new_game_cursor_reset.2.2 createCursorState okOracle baseGame
      (by decide) rfl).1⟩

/-- A solo-game snapshot whose host is not this client's player (the
player appears as guest), with `current_turn = "X"` and the game in
progress. -/
def soloMismatchGame : ApiGame :=
  { baseGame with id := "s1", mode := "SOLO", host_player_id := "hostess",
                  guest_player_id := some "alice" }

/-- A state on the solo screen caching `soloMismatchGame`. -/
def soloMismatchState : AppState :=
  { baseState with screen := Screen.SoloGame,
                   solo_game := some soloMismatchGame }

/-- C1 counterexample: on the solo screen with a cached view whose host
is not this player (derived symbol "O") while the turn field is "X",
a confirm keypress still issues a play-move call; the claim's
derived-symbol gating therefore fails for `SoloGame`. -/
theorem solo_confirm_ignores_player_symbol :
    AppModule.player_symbol_for soloMismatchState.player_id
        soloMismatchGame ≠ soloMismatchGame.current_turn ∧
    soloMismatchGame.status = "IN_PROGRESS" ∧
    (AppModule.handle_solo_key soloMismatchState KeyCode.enter okOracle).2 =
      [ApiCall.playMove "alice" "s1" 0] := by
  refine ⟨by decide, rfl, by decide⟩

theorem update_board_cursor_confirm_key (s : AppState) (k : KeyCode)
    (hk : k = KeyCode.enter ∨ k = KeyCode.char ' ') :
    AppModule.update_board_cursor s k = s := by
  have hdm : s.board_cursor / 3 * 3 + s.board_cursor % 3 = s.board_cursor :=
    by omega
  rcases hk with rfl | rfl <;>
    · show { s with board_cursor :=
          s.board_cursor / 3 * 3 + s.board_cursor % 3 } = s
      rw [hdm]

/-- C1 (amended): for a confirm key (Enter/Space) with a cached game
present, the `PvpGame` handler issues a play-move call exactly when the
status is `IN_PROGRESS` and the derived player symbol equals the
current-turn field, while the `SoloGame` handler issues one exactly
when the status is `IN_PROGRESS` and the current-turn field is "X"
(the derived symbol is not consulted); the two conditions agree
whenever the player is the host of the cached solo view; and when the
gating condition fails the keypress leaves the state unchanged with no
call and no error. -/
theorem move_confirm_gating :
    ∀ (s : AppState) (o : ApiOracle) (k : KeyCode),
      (k = KeyCode.enter ∨ k = KeyCode.char ' ') →
      (∀ g, s.pvp_game = some g →
        (((AppModule.handle_pvp_game_key s k o).2 ≠ []) ↔
          (g.status = "IN_PROGRESS" ∧
           AppModule.player_symbol_for s.player_id g = g.current_turn)) ∧
        (¬ (g.status = "IN_PROGRESS" ∧
            AppModule.player_symbol_for s.player_id g = g.current_turn) →
          AppModule.handle_pvp_game_key s k o = (s, []))) ∧
      (∀ g, s.solo_game = some g →
        (((AppModule.handle_solo_key s k o).2 ≠ []) ↔
          (g.current_turn = "X" ∧ g.status = "IN_PROGRESS")) ∧
        (¬ (g.current_turn = "X" ∧ g.status = "IN_PROGRESS") →
          AppModule.handle_solo_key s k o = (s, []))) ∧
      (∀ g : ApiGame, g.host_player_id = s.player_id →
        (AppModule.player_symbol_for s.player_id g = g.current_turn ↔
          g.current_turn = "X")) := by
  intro s o k hk
  have hcur : AppModule.update_board_cursor s k = s :=
    update_board_cursor_confirm_key s k hk
  have hknb : ¬ (k = KeyCode.char 'b') := by
    rcases hk with rfl | rfl <;> decide
  have hknq : ¬ (k = KeyCode.char 'q') := by
    rcases hk with rfl | rfl <;> decide
  refine ⟨?_, ?_, ?_⟩
  · intro g hg
    by_cases hcond : g.status = "IN_PROGRESS" ∧
        AppModule.player_symbol_for s.player_id g = g.current_turn
    · refine ⟨?_, fun hnc => absurd hcond hnc⟩
      unfold AppModule.handle_pvp_game_key
      rw [if_neg hknb, if_neg hknq]
      dsimp only
      rw [hcur, hg]
      dsimp only
      rw [if_pos (⟨hk, hcond⟩ :
        (k = KeyCode.enter ∨ k = KeyCode.char ' ') ∧
          g.status = "IN_PROGRESS" ∧
          AppModule.player_symbol_for s.player_id g = g.current_turn)]
      rcases hp : o.play_result with e | u <;> dsimp only <;>
        simp [hcond]
    · have hfull : ¬ ((k = KeyCode.enter ∨ k = KeyCode.char ' ') ∧
          g.status = "IN_PROGRESS" ∧
          AppModule.player_symbol_for s.player_id g = g.current_turn) :=
        fun hx => hcond hx.2
      have hred : AppModule.handle_pvp_game_key s k o = (s, []) := by
        unfold AppModule.handle_pvp_game_key
        rw [if_neg hknb, if_neg hknq]
        dsimp only
        rw [hcur, hg]
        dsimp only
        rw [if_neg hfull]
      exact ⟨by rw [hred]; simp [hcond], fun _ => hred⟩
  · intro g hg
    by_cases hcond : g.current_turn = "X" ∧ g.status = "IN_PROGRESS"
    · refine ⟨?_, fun hnc => absurd hcond hnc⟩
      unfold AppModule.handle_solo_key
      rw [if_neg hknb, if_neg hknq]
      dsimp only
      rw [hcur, hg]
      dsimp only
      rw [if_pos hk, if_pos hcond]
      rcases hp : o.play_result with e | u <;> dsimp only <;>
        simp [hcond]
    · have hred : AppModule.handle_solo_key s k o = (s, []) := by
        unfold AppModule.handle_solo_key
        rw [if_neg hknb, if_neg hknq]
        dsimp only
        rw [hcur, hg]
        dsimp only
        rw [if_pos hk, if_neg hcond]
      exact ⟨by rw [hred]; simp [hcond], fun _ => hred⟩
  · intro g hhost
    unfold AppModule.player_symbol_for
    rw [if_pos hhost]
    exact eq_comm

/-- A state on the pvp screen caching `baseGame`, where this player is
the host. -/
def pvpGameFixtureState : AppState :=
  { baseState with screen := Screen.PvpGame, pvp_game := some baseGame }

theorem move_confirm_gating_witness :
    ((AppModule.handle_pvp_game_key pvpGameFixtureState KeyCode.enter
        okOracle).2 ≠ [] ↔
      (baseGame.status = "IN_PROGRESS" ∧
       AppModule.player_symbol_for pvpGameFixtureState.player_id baseGame =
         baseGame.current_turn)) ∧
    (baseGame.host_player_id = pvpGameFixtureState.player_id →
      (AppModule.player_symbol_for pvpGameFixtureState.player_id baseGame =
          baseGame.current_turn ↔ baseGame.current_turn = "X")) :=
  ⟨((move_confirm_gating pvpGameFixtureState okOracle KeyCode.enter
      (Or.inl rfl)).1 baseGame rfl).1,
   (move_confirm_gating pvpGameFixtureState okOracle KeyCode.enter
      (Or.inl rfl)).2.2 baseGame⟩

theorem string_data_append (a b : String) : (a ++ b).data = a.data ++ b.data :=
  rfl

/-- C6: when the game-over transition fires with status `WON` and a
winner equal to the acting player's derived symbol, the composed
message contains "You won!"; with a different winner it contains
"You lost."; with status `DRAW` the composed result line is exactly
"Result: Draw" (appearing in the message) and carries no winner, won or
lost claim. -/
theorem game_over_message_outcome :
    ∀ (s : AppState) (g : ApiGame) (mode_label w : String),
      (g.status = "WON" → g.winner = some w →
        w = AppModule.player_symbol_for s.player_id g →
        List.IsInfix "You won!".data
          (AppModule.open_game_over s g mode_label).game_over_message.data) ∧
      (g.status = "WON" → g.winner = some w →
        w ≠ AppModule.player_symbol_for s.player_id g →
        List.IsInfix "You lost.".data
          (AppModule.open_game_over s g mode_label).game_over_message.data) ∧
      (g.status = "DRAW" →
        AppModule.game_over_result_line s.player_id g = "Result: Draw" ∧
        List.IsInfix "Result: Draw".data
          (AppModule.open_game_over s g mode_label).game_over_message.data ∧
        ¬ List.IsInfix "Winner".data
            (AppModule.game_over_result_line s.player_id g).data ∧
        ¬ List.IsInfix "won".data
            (AppModule.game_over_result_line s.player_id g).data ∧
        ¬ List.IsInfix "lost".data
            (AppModule.game_over_result_line s.player_id g).data) := by
  intro s g mode_label w
  refine ⟨?_, ?_, ?_⟩
  · intro hst hw heq
    unfold AppModule.open_game_over AppModule.game_over_result_line
    rw [hst, hw, if_pos rfl, Option.getD_some]
    dsimp only
    rw [if_pos heq]
    exact ⟨(mode_label ++ " game finished.\nGame id: " ++ g.id ++ "\n" ++
        "Winner: " ++ w ++ " (").data, ")".data,
      by simp [string_data_append, List.append_assoc]⟩
  · intro hst hw hne
    unfold AppModule.open_game_over AppModule.game_over_result_line
    rw [hst, hw, if_pos rfl, Option.getD_some]
    dsimp only
    rw [if_neg hne]
    exact ⟨(mode_label ++ " game finished.\nGame id: " ++ g.id ++ "\n" ++
        "Winner: " ++ w ++ " (").data, ")".data,
      by simp [string_data_append, List.append_assoc]⟩
  · intro hst
    have hline : AppModule.game_over_result_line s.player_id g =
        "Result: Draw" := by
      unfold AppModule.game_over_result_line
      rw [hst, if_neg (by decide : ¬ ("DRAW" : String) = "WON")]
    refine ⟨hline, ?_, ?_, ?_, ?_⟩
    · unfold AppModule.open_game_over
      rw [hline]
      exact ⟨(mode_label ++ " game finished.\nGame id: " ++ g.id ++
          "\n").data, ("" : String).data,
        by simp [string_data_append, List.append_assoc]⟩
    · rw [hline]; decide
    · rw [hline]; decide
    · rw [hline]; decide

/-- A finished game snapshot won by the host symbol X. -/
def wonGame : ApiGame :=
  { baseGame with status := "WON", winner := some "X" }

/-- A drawn game snapshot. -/
def drawGame : ApiGame :=
  { baseGame with status := "DRAW" }

theorem game_over_message_outcome_witness :
    (wonGame.status = "WON" ∧ wonGame.winner = some "X" ∧
      ("X" : String) =
        AppModule.player_symbol_for baseState.player_id wonGame ∧
      List.IsInfix "You won!".data
        (AppModule.open_game_over baseState wonGame
          "PvP").game_over_message.data) ∧
    (drawGame.status = "DRAW" ∧
      AppModule.game_over_result_line baseState.player_id drawGame =
        "Result: Draw") :=
  ⟨⟨rfl, rfl, by decide,
    (game_over_message_outcome baseState wonGame "PvP" "X").1 rfl rfl
      (by decide)⟩,
   ⟨rfl,
    ((game_over_message_outcome baseState drawGame "PvP" "X").2.2 rfl).1⟩⟩

/-- A game snapshot with an empty board: the deserialization target
(`ApiGame`) imposes no length check on `board`, so this value is a
well-formed server response the client can hold. -/
def shortBoardGame : ApiGame :=
  { baseGame with board := [] }

/-- C9 counterexample: a client-held game view may have a board without
nine cells, and rendering such a view indexes the board out of bounds
(the unguarded `board[idx]` panic is modelled as `none`). -/
theorem render_short_board_out_of_bounds :
    shortBoardGame.board.length ≠ 9 ∧
    AppModule.render_board_text shortBoardGame.board 0 = none :=
  ⟨by decide, rfl⟩

/-- C9 (amended): for every game view whose board has exactly nine
cells, rendering the cached view succeeds with every cell access in
bounds; the client itself does not enforce the nine-cell shape on
deserialized views, so in-bounds rendering is conditional on the server
honouring it. -/
theorem render_board_in_bounds :
    ∀ (board : List (Option String)) (cursor : Nat), board.length = 9 →
      (AppModule.render_board_text board cursor).isSome = true := by
  intro board cursor h
  rcases board with _ | ⟨a0, _ | ⟨a1, _ | ⟨a2, _ | ⟨a3, _ | ⟨a4, _ | ⟨a5,
    _ | ⟨a6, _ | ⟨a7, _ | ⟨a8, rest⟩⟩⟩⟩⟩⟩⟩⟩⟩ <;> first | rfl | simp at h

theorem render_board_in_bounds_witness :
    emptyBoard.length = 9 ∧
    (AppModule.render_board_text emptyBoard 0).isSome = true :=
  ⟨rfl, render_board_in_bounds emptyBoard 0 rfl⟩

/-- C10: the monolithic controller of `main.rs` and the modular
controller of `app.rs`/`api.rs`/`models.rs` are behaviorally
equivalent: for every state, key event, poll tick, input trace and
oracle of remote results they produce identical states and remote-call
sequences, and all six request builders produce identical URLs and
payloads. -/
theorem controllers_equivalent :
    (∀ (s : AppState) (k : KeyCode) (o : ApiOracle),
      AppModule.handle_key s k o = MainMono.handle_key s k o) ∧
    (∀ (s : AppState) (now : Nat) (o : ApiOracle),
      AppModule.refresh_remote_state_if_needed s now o =
        MainMono.refresh_remote_state_if_needed s now o) ∧
    (∀ (s : AppState) (inputs : List Input),
      AppModule.runTrace s inputs = MainMono.runTrace s inputs) ∧
    (∀ base pid, AppModule.create_solo_request base pid =
      MainMono.create_solo_request base pid) ∧
    (∀ base pid name pw, AppModule.create_pvp_request base pid name pw =
      MainMono.create_pvp_request base pid name pw) ∧
    (∀ base, AppModule.list_open_pvp_request base =
      MainMono.list_open_pvp_request base) ∧
    (∀ base pid gid pw, AppModule.join_pvp_request base pid gid pw =
      MainMono.join_pvp_request base pid gid pw) ∧
    (∀ base gid, AppModule.get_game_request base gid =
      MainMono.get_game_request base gid) ∧
    (∀ base pid gid idx, AppModule.play_move_request base pid gid idx =
      MainMono.play_move_request base pid gid idx) := by
  have hstep : ∀ (s : AppState) (i : Input),
      AppModule.step s i = MainMono.step s i := by
    intro s i
    cases i <;> rfl
  refine ⟨fun s k o => rfl, fun s now o => rfl, ?_, fun base pid => rfl,
    fun base pid name pw => rfl, fun base => rfl,
    fun base pid gid pw => rfl, fun base gid => rfl,
    fun base pid gid idx => rfl⟩
  intro s inputs
  induction inputs generalizing s with
  | nil => rfl
  | cons i rest ih =>
    simp only [AppModule.runTrace, MainMono.runTrace, hstep, ih]

end TicTacToeTui
